import Mathlib

/-!
ISCLogs: severity-tagged messages and threshold-filtering loggers

A shallow embedding of `Library/include/ISCLogs/{NoThrowString,Message,Logger}.hpp`
and `Library/src/{NoThrowString,Message,Logger}.cpp`.

Conventions of the embedding.

* A C++ member function that mutates its receiver and returns a value is a
  function returning a pair: the receiver after the call, and the returned value.
* `new (std::nothrow)` may return `nullptr`. Every such allocation takes its
  outcome as an explicit Boolean argument (`true`: storage obtained).
* The pure virtual `Logger::log_message_internal` is supplied by a concrete
  sink; it is a parameter `Message → σ → σ` acting on the sink's state `σ`.
* `std::string` is `String`, `std::list<std::string>` is `List String`,
  `unsigned int` is `Nat`.
* `Message::m_temp_string` is a scratch pointer that only `what()` writes and
  nothing reads; it is not a field of the embedded `Message`.
-/

namespace isc

/-! ## NoThrowString.hpp / NoThrowString.cpp -/

namespace util

/-- The class `NoThrowString`: the member `m_str` is a pointer to a heap string,
`none` standing for `nullptr`. -/
structure NoThrowString where
  m_str : Option String := none
deriving DecidableEq, Repr

namespace NoThrowString

/-- The constant `s_default_string`. -/
def s_default_string : String := "Default String"

/-- The default constructor `NoThrowString()`: `m_str` keeps its initialiser `nullptr`. -/
def ctor_default : NoThrowString := { m_str := none }

/-- The constructors `NoThrowString(const char*)` and `NoThrowString(const std::string&)`:
`m_str = new(std::nothrow) std::string(string)`; `alloc_ok` is the outcome of the allocation. -/
def ctor (alloc_ok : Bool) (string : String) : NoThrowString :=
  { m_str := if alloc_ok then some string else none }

/-- The copy constructor: a null source gives a null copy, otherwise a fresh
nothrow allocation holding a copy of the source string. -/
def ctor_copy (alloc_ok : Bool) (string : NoThrowString) : NoThrowString :=
  match string.m_str with
  | none => { m_str := none }
  | some s => { m_str := if alloc_ok then some s else none }

/-- The move constructor: steals the pointer. Returns the new object and the moved-from source. -/
def ctor_move (string : NoThrowString) : NoThrowString × NoThrowString :=
  ({ m_str := string.m_str }, { m_str := none })

/-- The accessor `get()`: the default string for a null pointer, the held string otherwise. -/
def get (self : NoThrowString) : String :=
  match self.m_str with
  | none => s_default_string
  | some s => s

end NoThrowString

end util

/-! ## Message.hpp / Message.cpp -/

/-- The enumeration `Message::Severity`, enumerators in declaration order. -/
inductive Message.Severity where
  | Debug
  | Nominal
  | Notice
  | Warning
  | Error
  | Fatal
deriving DecidableEq, Repr

namespace Message.Severity

/-- The underlying value of each enumerator: `Debug = 0`, then counting up. -/
def toNat : Message.Severity → Nat
  | Debug => 0
  | Nominal => 1
  | Notice => 2
  | Warning => 3
  | Error => 4
  | Fatal => 5

/-- The built-in relational operators of a scoped enumeration compare the
underlying values. -/
instance : LinearOrder Message.Severity :=
  LinearOrder.lift' toNat (by
    intro a b h
    cases a <;> cases b <;> first | rfl | (exact absurd h (by decide)))

end Message.Severity

/-- The members of `std::source_location` that the accessors read. -/
structure SourceLocation where
  file_name : String := ""
  line : Nat := 0
  column : Nat := 0
  function_name : String := ""
deriving DecidableEq, Repr

/-- The data members of the class `Message`. -/
structure Message where
  m_code : Nat
  m_name : util.NoThrowString
  m_has_description : Bool
  m_description : util.NoThrowString
  m_severity : Message.Severity
  m_source_location : SourceLocation
  m_trace : List String
deriving DecidableEq, Repr

namespace Message

open Message.Severity

/-- The constructor `Message()`, defaulted: every member takes its default member
initialiser. The two string members are built from literals by
`NoThrowString(const char*)`, whose allocations have outcomes `name_ok` and
`description_ok`. -/
def ctor_default (name_ok description_ok : Bool) : Message :=
  { m_code := 0
    m_name := util.NoThrowString.ctor name_ok "Default Name"
    m_has_description := true
    m_description := util.NoThrowString.ctor description_ok "Default Description"
    m_severity := Nominal
    m_source_location := {}
    m_trace := [] }

/-- The constructor `Message(code, name, description, severity, location)`.
The by-value `NoThrowString` arguments are moved into the members;
`m_has_description` keeps its initialiser `true`. -/
def ctor (code : Nat) (name description : util.NoThrowString)
    (severity : Message.Severity) (location : SourceLocation) : Message :=
  { m_code := code
    m_name := (util.NoThrowString.ctor_move name).1
    m_has_description := true
    m_description := (util.NoThrowString.ctor_move description).1
    m_severity := severity
    m_source_location := location
    m_trace := [] }

/-- The constructor `Message(code, name, severity, location)`, without a description:
`m_has_description(false)`; `m_description` takes its default member initialiser,
whose allocation has outcome `description_ok`. -/
def ctor_nodesc (description_ok : Bool) (code : Nat) (name : util.NoThrowString)
    (severity : Message.Severity) (location : SourceLocation) : Message :=
  { m_code := code
    m_name := (util.NoThrowString.ctor_move name).1
    m_has_description := false
    m_description := util.NoThrowString.ctor description_ok "Default Description"
    m_severity := severity
    m_source_location := location
    m_trace := [] }

/-- The implicit copy constructor of `Message`: memberwise copy. The two
`NoThrowString` members go through `NoThrowString`'s copy constructor, with
allocation outcomes `name_ok` and `description_ok`. -/
def ctor_copy (name_ok description_ok : Bool) (other : Message) : Message :=
  { m_code := other.m_code
    m_name := util.NoThrowString.ctor_copy name_ok other.m_name
    m_has_description := other.m_has_description
    m_description := util.NoThrowString.ctor_copy description_ok other.m_description
    m_severity := other.m_severity
    m_source_location := other.m_source_location
    m_trace := other.m_trace }

/-- The accessor `code()`. -/
def code (self : Message) : Nat := self.m_code

/-- The accessor `has_description()`. -/
def has_description (self : Message) : Bool := self.m_has_description

/-- The accessor `name()`. -/
def name (self : Message) : String := self.m_name.get

/-- The accessor `description()`. -/
def description (self : Message) : String := self.m_description.get

/-- The accessor `severity()`. -/
def severity (self : Message) : Message.Severity := self.m_severity

/-- The accessor `get_trace()`. -/
def get_trace (self : Message) : List String := self.m_trace

/-- The accessor `line()`. -/
def line (self : Message) : Nat := self.m_source_location.line

/-- The accessor `column()`. -/
def column (self : Message) : Nat := self.m_source_location.column

/-- The accessor `file()`. -/
def file (self : Message) : String := self.m_source_location.file_name

/-- The bracketed tag chosen by the `switch` of `message()`. -/
def severity_tag : Message.Severity → String
  | Debug => "[Debug]"
  | Nominal => "[Nominal]"
  | Notice => "[Notice]"
  | Warning => "[Warning]"
  | Error => "[Error]"
  | Fatal => "[Fatal]"

/-- The member function `message()`: the stream receives the tag, `": "`, the name and,
when `has_description()`, `" - "` and the description. -/
def message (self : Message) : String :=
  let severity := severity_tag self.m_severity
  let oss := "" ++ severity ++ ": " ++ self.m_name.get
  let oss := if self.has_description then oss ++ " - " ++ self.m_description.get else oss
  oss

/-- The member function `is_failure()`: `m_severity >= Severity::Error`. -/
def is_failure (self : Message) : Bool := decide (self.m_severity ≥ Error)

/-- The member function `add_trace(message)`: `m_trace.push_back(message); return *this;`.
The return type is `Message`, by value, so the result is a copy of the receiver
taken after the append. First component: the receiver after the call; second: the
returned object. -/
def add_trace (name_ok description_ok : Bool) (self : Message) (message : String) :
    Message × Message :=
  let self1 := { self with m_trace := self.m_trace ++ [message] }
  (self1, ctor_copy name_ok description_ok self1)

/-- The member function `promote(severity)`:
`if (m_severity < severity) m_severity = severity; return *this;`, returning by value.
First component: the receiver after the call; second: the returned object. -/
def promote (name_ok description_ok : Bool) (self : Message) (severity : Message.Severity) :
    Message × Message :=
  let self1 := if self.m_severity < severity then { self with m_severity := severity } else self
  (self1, ctor_copy name_ok description_ok self1)

/-- A sequence element for a client that calls the two mutators: which member
function is called, with which argument and allocation outcomes, and whether
the client goes on with the returned object (`follow_result`) or with the receiver. -/
inductive Call where
  | promote (name_ok description_ok : Bool) (severity : Message.Severity) (follow_result : Bool)
  | add_trace (name_ok description_ok : Bool) (message : String) (follow_result : Bool)
deriving DecidableEq, Repr

/-- One call of a mutator, giving the object the client goes on with. -/
def call (self : Message) : Call → Message
  | .promote name_ok description_ok severity follow_result =>
    let r := self.promote name_ok description_ok severity
    if follow_result then r.2 else r.1
  | .add_trace name_ok description_ok message follow_result =>
    let r := self.add_trace name_ok description_ok message
    if follow_result then r.2 else r.1

/-- A sequence of mutator calls, left to right. -/
def calls (self : Message) (cs : List Call) : Message := cs.foldl call self

/-- The client expression `m.add_trace(a).add_trace(b)`. The first call acts on `m` and
returns a temporary by value; the second call acts on that temporary. First component:
`m` after the full expression; second: the value of the expression. -/
def add_trace_chain (name_ok1 description_ok1 name_ok2 description_ok2 : Bool)
    (m : Message) (a b : String) : Message × Message :=
  let first := m.add_trace name_ok1 description_ok1 a
  let second := first.2.add_trace name_ok2 description_ok2 b
  (first.1, second.2)

end Message

/-! ### The severity-named subclasses

Each subclass adds no data member; its constructors only call a `Message`
constructor, so the constructed object is the `Message` base object. -/

/-- The constructor `NominalMessage(code, name, description, location)`. -/
def NominalMessage.ctor (code : Nat) (name description : util.NoThrowString)
    (location : SourceLocation) : Message :=
  Message.ctor code (util.NoThrowString.ctor_move name).1
    (util.NoThrowString.ctor_move description).1 Message.Severity.Nominal location

/-- The constructor `NominalMessage(code, name, location)`. -/
def NominalMessage.ctor_nodesc (description_ok : Bool) (code : Nat) (name : util.NoThrowString)
    (location : SourceLocation) : Message :=
  Message.ctor_nodesc description_ok code (util.NoThrowString.ctor_move name).1
    Message.Severity.Nominal location

/-- The constructor `DebugMessage(code, name, description, location)`. -/
def DebugMessage.ctor (code : Nat) (name description : util.NoThrowString)
    (location : SourceLocation) : Message :=
  Message.ctor code (util.NoThrowString.ctor_move name).1
    (util.NoThrowString.ctor_move description).1 Message.Severity.Nominal location

/-- The constructor `DebugMessage(code, name, location)`. -/
def DebugMessage.ctor_nodesc (description_ok : Bool) (code : Nat) (name : util.NoThrowString)
    (location : SourceLocation) : Message :=
  Message.ctor_nodesc description_ok code (util.NoThrowString.ctor_move name).1
    Message.Severity.Nominal location

/-- The constructor `NoticeMessage(code, name, description, location)`. -/
def NoticeMessage.ctor (code : Nat) (name description : util.NoThrowString)
    (location : SourceLocation) : Message :=
  Message.ctor code (util.NoThrowString.ctor_move name).1
    (util.NoThrowString.ctor_move description).1 Message.Severity.Nominal location

/-- The constructor `NoticeMessage(code, name, location)`. -/
def NoticeMessage.ctor_nodesc (description_ok : Bool) (code : Nat) (name : util.NoThrowString)
    (location : SourceLocation) : Message :=
  Message.ctor_nodesc description_ok code (util.NoThrowString.ctor_move name).1
    Message.Severity.Nominal location

/-- The constructor `WarningMessage(code, name, description, location)`. -/
def WarningMessage.ctor (code : Nat) (name description : util.NoThrowString)
    (location : SourceLocation) : Message :=
  Message.ctor code (util.NoThrowString.ctor_move name).1
    (util.NoThrowString.ctor_move description).1 Message.Severity.Nominal location

/-- The constructor `WarningMessage(code, name, location)`. -/
def WarningMessage.ctor_nodesc (description_ok : Bool) (code : Nat) (name : util.NoThrowString)
    (location : SourceLocation) : Message :=
  Message.ctor_nodesc description_ok code (util.NoThrowString.ctor_move name).1
    Message.Severity.Nominal location

/-- The constructor `ErrorMessage(code, name, description, location)`. -/
def ErrorMessage.ctor (code : Nat) (name description : util.NoThrowString)
    (location : SourceLocation) : Message :=
  Message.ctor code (util.NoThrowString.ctor_move name).1
    (util.NoThrowString.ctor_move description).1 Message.Severity.Nominal location

/-- The constructor `ErrorMessage(code, name, location)`. -/
def ErrorMessage.ctor_nodesc (description_ok : Bool) (code : Nat) (name : util.NoThrowString)
    (location : SourceLocation) : Message :=
  Message.ctor_nodesc description_ok code (util.NoThrowString.ctor_move name).1
    Message.Severity.Nominal location

/-- The constructor `FatalMessage(code, name, description, location)`. -/
def FatalMessage.ctor (code : Nat) (name description : util.NoThrowString)
    (location : SourceLocation) : Message :=
  Message.ctor code (util.NoThrowString.ctor_move name).1
    (util.NoThrowString.ctor_move description).1 Message.Severity.Nominal location

/-- The constructor `FatalMessage(code, name, location)`. -/
def FatalMessage.ctor_nodesc (description_ok : Bool) (code : Nat) (name : util.NoThrowString)
    (location : SourceLocation) : Message :=
  Message.ctor_nodesc description_ok code (util.NoThrowString.ctor_move name).1
    Message.Severity.Nominal location

/-! ## Logger.hpp / Logger.cpp -/

/-- The data member of the class `Logger`, with its default member initialiser. -/
structure Logger where
  m_threshold : Message.Severity := Message.Severity.Nominal
deriving DecidableEq, Repr

namespace Logger

/-- The defaulted constructor `Logger()`. -/
def ctor_default : Logger := {}

/-- The constructor `Logger(threshold)`. -/
def ctor (threshold : Message.Severity) : Logger := { m_threshold := threshold }

/-- The member function `log_message(message)`:
`if (message.severity() >= m_threshold) log_message_internal(message);`.
The virtual `log_message_internal` is the concrete sink's handler, acting on the
sink state; the function is `const`, so the logger itself is unchanged. -/
def log_message {σ : Type} (log_message_internal : Message → σ → σ)
    (self : Logger) (message : Message) (sink : σ) : σ :=
  if message.severity ≥ self.m_threshold then log_message_internal message sink else sink

/-- The member function `set_severity(severity)`: `m_threshold = severity;`. -/
def set_severity (self : Logger) (severity : Message.Severity) : Logger :=
  { self with m_threshold := severity }

/-- A public member function call on a logger, as a client issues it. -/
inductive Call where
  | log_message (message : Message)
  | set_severity (severity : Message.Severity)
deriving DecidableEq, Repr

/-- One client call on a logger and its sink: `log_message` leaves the logger as it
is and may act on the sink, `set_severity` acts on the logger only. -/
def call {σ : Type} (log_message_internal : Message → σ → σ) :
    Logger × σ → Call → Logger × σ
  | (self, sink), .log_message message => (self, self.log_message log_message_internal message sink)
  | (self, sink), .set_severity severity => (self.set_severity severity, sink)

/-- A sequence of client calls, left to right. -/
def run {σ : Type} (log_message_internal : Message → σ → σ)
    (start : Logger × σ) (cs : List Call) : Logger × σ :=
  cs.foldl (call log_message_internal) start

end Logger

/-- A concrete sink that observes the dispatch: its state is the list of the messages
handed to `log_message_internal` so far, oldest first. The handler appends its argument. -/
def RecordingLogger.log_message_internal (message : Message) (received : List Message) :
    List Message :=
  received ++ [message]

/-! ## Library functions that Message.cpp calls

Positions and sizes count characters; for the ASCII text of paths and messages that
is the byte count of `std::string`. -/

namespace stdlib

/-- The library function `std::filesystem::path::filename` for the generic path format
with separator `/`: the text after the last separator, empty when the path ends in one. -/
def posix_filename (p : String) : String :=
  String.mk (p.data.reverse.takeWhile (fun c => c != '/')).reverse

/-- The library function `std::string::find_first_of(chars)`: the first position of `s`
that holds a character occurring anywhere in `chars`; `none` stands for `npos`. -/
def string_find_first_of (s chars : String) : Option Nat :=
  s.data.findIdx? (fun c => chars.data.contains c)

/-- The library function `std::string::erase(pos, n)` for `pos <= size()`: removes the
characters at positions `pos`, ..., `pos + n - 1`, as many of them as exist. -/
def string_erase (s : String) (pos n : Nat) : String :=
  String.mk (s.data.take pos ++ s.data.drop (pos + n))

/-- The terminating character of a C string. -/
def NUL : Char := Char.ofNat 0

/-- The C string that `std::string::c_str()` points to, as `strlen` and `strcpy_s` read it:
the characters before the first `NUL`. -/
def c_str (s : String) : List Char := s.data.takeWhile (fun c => c != NUL)

/-- The library function `strlen` on `s.c_str()`. -/
def strlen (s : String) : Nat := (c_str s).length

/-- What a `char*` destination refers to. -/
inductive CBuffer where
  | null
  | indeterminate
  | c_string (chars : List Char)
deriving DecidableEq, Repr

/-- The bounds-checked library function `strcpy_s(dest, destsz, src)` with `src` the C string
of `s`, followed past the runtime-constraint handler. A null `dest` or a `destsz` of zero is
rejected and `dest` is left alone. A `destsz` that does not exceed `strlen(src)`, so that the
characters and the terminator do not fit, is rejected and `dest[0]` is set to `NUL`.
Otherwise the characters and the terminator are copied. First component: whether the
returned error code is zero; second: the destination after the call. -/
def strcpy_s (dest : CBuffer) (destsz : Nat) (s : String) : Bool × CBuffer :=
  match dest with
  | .null => (false, .null)
  | d =>
    if destsz = 0 then (false, d)
    else if destsz ≤ strlen s then (false, .c_string [])
    else (true, .c_string (c_str s))

end stdlib

/-! ## Message.cpp: `get_filename`, `Message::function`, `Message::what` -/

/-- The function `get_filename(loc, relative_to)`. The parameter `path_filename` is the
library's `std::filesystem::path::filename`, whose result depends on the path format of
the platform.
`path = filename of loc.file_name()`; when `relative_to` is not empty,
`pos = path.find_first_of(relative_to)`, the path is returned as it is when
`pos >= path.size()`, and `path.erase(pos, relative_to.size())` is returned otherwise. -/
def get_filename (path_filename : String → String) (loc : SourceLocation)
    (relative_to : String) : String :=
  let path := path_filename loc.file_name
  if relative_to.length > 0 then
    match stdlib.string_find_first_of path relative_to with
    | none => path
    | some pos =>
      if pos ≥ path.length then path
      else stdlib.string_erase path pos relative_to.length
  else path

/-- The accessor `function(relative_to)`: `return get_filename(m_source_location, relative_to);`.
The value is the text of the string that `get_filename` returned. -/
def Message.function (path_filename : String → String) (self : Message)
    (relative_to : String) : String :=
  get_filename path_filename self.m_source_location relative_to

/-- The member function `what()`:
`msg = message(); m_temp_string = new(std::nothrow) char[msg.size() + 1];`
`strcpy_s(m_temp_string, msg.size() * sizeof(char), msg.c_str()); return m_temp_string;`.
The outcome of the allocation is `alloc_ok`; the error code of `strcpy_s` is discarded.
The value is what the returned pointer refers to. -/
def Message.what (alloc_ok : Bool) (self : Message) : stdlib.CBuffer :=
  let msg := self.message
  let m_temp_string : stdlib.CBuffer := if alloc_ok then .indeterminate else .null
  (stdlib.strcpy_s m_temp_string (msg.length * 1) msg).2

/-! ## Comparing two messages apart from their severity -/

/-- The two messages agree in what `code()`, `name()`, `description()`, `has_description()`,
the origin and `get_trace()` return. -/
def Message.agrees_apart_from_severity (a b : Message) : Prop :=
  a.code = b.code ∧ a.name = b.name ∧ a.description = b.description ∧
  a.has_description = b.has_description ∧ a.m_source_location = b.m_source_location ∧
  a.get_trace = b.get_trace

instance (a b : Message) : Decidable (Message.agrees_apart_from_severity a b) := by
  unfold Message.agrees_apart_from_severity
  infer_instance

/-! ## The rendering format as the specification words it -/

namespace Spec

/-- The name of a severity, as the specification writes it inside the brackets. -/
def severity_name : Message.Severity → String
  | .Debug => "Debug"
  | .Nominal => "Nominal"
  | .Notice => "Notice"
  | .Warning => "Warning"
  | .Error => "Error"
  | .Fatal => "Fatal"

/-- The format of the specification: `[<Severity>]: <name>`, suffixed with ` - <description>`
when `has_description` holds. To be compared with `Message.message`. -/
def render (severity : Message.Severity) (name : String) (has_description : Bool)
    (description : String) : String :=
  "[" ++ severity_name severity ++ "]: " ++ name ++
    (if has_description then " - " ++ description else "")

end Spec

/-! ## Auxiliary facts -/

theorem Message.Severity.le_iff_toNat (a b : Message.Severity) : a ≤ b ↔ a.toNat ≤ b.toNat :=
  Iff.rfl

theorem Message.Severity.lt_iff_toNat (a b : Message.Severity) : a < b ↔ a.toNat < b.toNat :=
  Iff.rfl

theorem Message.Severity.ite_lt_eq_max (c s : Message.Severity) :
    (if c < s then s else c) = max c s := by
  cases c <;> cases s <;> decide

theorem util.NoThrowString.copy_keeps_string_when_allocated (x : util.NoThrowString) :
    util.NoThrowString.ctor_copy true x = x := by
  obtain ⟨p⟩ := x
  cases p <;> rfl

theorem Message.copy_eq_source_when_allocated (m : Message) : Message.ctor_copy true true m = m := by
  obtain ⟨c, n, h, d, sev, loc, tr⟩ := m
  simp [Message.ctor_copy, util.NoThrowString.copy_keeps_string_when_allocated]

theorem Message.promote_receiver_severity (name_ok description_ok : Bool) (self : Message)
    (s : Message.Severity) :
    (self.promote name_ok description_ok s).1.m_severity
      = if self.m_severity < s then s else self.m_severity := by
  unfold Message.promote
  by_cases h : self.m_severity < s <;> simp [h]

theorem Message.promote_result_severity (name_ok description_ok : Bool) (self : Message)
    (s : Message.Severity) :
    (self.promote name_ok description_ok s).2.m_severity
      = (self.promote name_ok description_ok s).1.m_severity := rfl

theorem Message.promote_receiver_of_le (name_ok description_ok : Bool) (self : Message)
    (s : Message.Severity) (h : s ≤ self.m_severity) :
    (self.promote name_ok description_ok s).1 = self := by
  unfold Message.promote
  simp [not_lt.mpr h]

theorem Message.message_eq_render (self : Message) :
    self.message = Spec.render self.severity self.name self.has_description self.description := by
  unfold Message.message Spec.render Message.severity Message.name Message.description
  have tag : Message.severity_tag self.m_severity
      = "[" ++ Spec.severity_name self.m_severity ++ "]" := by
    cases self.m_severity <;> decide
  simp only [tag]
  cases self.has_description <;> simp [String.append_assoc]

theorem Message.message_length_pos (self : Message) : 0 < self.message.length := by
  rw [Message.message_eq_render]
  unfold Spec.render
  simp only [String.length_append]
  have h : ("[" : String).length = 1 := by decide
  omega

/-! ## Logger: threshold filtering -/

/-- C1: for every logger threshold `T` and every message of severity `S`,
`log_message` invokes the sink handler exactly once, with that same message, when
`S >= T` (equality included), and does not invoke it when `S < T`. Stated for an
arbitrary handler (the sink ends in the state the handler gives on that message, or
is untouched) and for the recording sink (the list of received messages grows by
exactly that message, or not at all). -/
theorem log_message_dispatches_iff_at_least_threshold (self : Logger) (message : Message) :
    (message.severity ≥ self.m_threshold →
      (∀ (σ : Type) (handler : Message → σ → σ) (sink : σ),
        self.log_message handler message sink = handler message sink) ∧
      (∀ received : List Message,
        self.log_message RecordingLogger.log_message_internal message received
          = received ++ [message])) ∧
    (message.severity < self.m_threshold →
      (∀ (σ : Type) (handler : Message → σ → σ) (sink : σ),
        self.log_message handler message sink = sink) ∧
      (∀ received : List Message,
        self.log_message RecordingLogger.log_message_internal message received = received)) ∧
    (message.severity = self.m_threshold →
      ∀ received : List Message,
        self.log_message RecordingLogger.log_message_internal message received
          = received ++ [message]) := by
  refine ⟨fun h => ⟨?_, ?_⟩, fun h => ⟨?_, ?_⟩, fun h received => ?_⟩
  · intro σ handler sink
    simp [Logger.log_message, h]
  · intro received
    simp [Logger.log_message, h, RecordingLogger.log_message_internal]
  · intro σ handler sink
    simp [Logger.log_message, not_le.mpr h]
  · intro received
    simp [Logger.log_message, not_le.mpr h]
  · simp [Logger.log_message, h, RecordingLogger.log_message_internal]

/-- Witness for C1: a logger with threshold `Warning` hands an `Error` message to the
sink once, hands a `Warning` message to the sink once, and drops a `Notice` message. -/
theorem log_message_dispatches_iff_at_least_threshold_witness :
    (Logger.ctor .Warning).log_message RecordingLogger.log_message_internal
        (Message.ctor_nodesc true 7 (util.NoThrowString.ctor true "late") .Error {}) []
      = [Message.ctor_nodesc true 7 (util.NoThrowString.ctor true "late") .Error {}] ∧
    (Logger.ctor .Warning).log_message RecordingLogger.log_message_internal
        (Message.ctor_nodesc true 8 (util.NoThrowString.ctor true "slow") .Notice {}) []
      = [] ∧
    (Logger.ctor .Warning).log_message RecordingLogger.log_message_internal
        (Message.ctor_nodesc true 9 (util.NoThrowString.ctor true "odd") .Warning {}) []
      = [Message.ctor_nodesc true 9 (util.NoThrowString.ctor true "odd") .Warning {}] :=
  ⟨((log_message_dispatches_iff_at_least_threshold (Logger.ctor .Warning)
      (Message.ctor_nodesc true 7 (util.NoThrowString.ctor true "late") .Error {})).1
        (by decide)).2 [],
   ((log_message_dispatches_iff_at_least_threshold (Logger.ctor .Warning)
      (Message.ctor_nodesc true 8 (util.NoThrowString.ctor true "slow") .Notice {})).2.1
        (by decide)).2 [],
   (log_message_dispatches_iff_at_least_threshold (Logger.ctor .Warning)
      (Message.ctor_nodesc true 9 (util.NoThrowString.ctor true "odd") .Warning {})).2.2
        rfl []⟩

/-! ## Message: promotion, failure classification, trace -/

/-- C2: for every message of severity `c` and every severity `s`, after `promote(s)`
the severity of the receiver and the severity of the returned message both equal
`max c s` under the order `Debug < Nominal < Notice < Warning < Error < Fatal`; the
severity after the call is never lower than before, and when `c <= s` it is `s`. -/
theorem promote_severity_eq_max (name_ok description_ok : Bool) (self : Message)
    (s : Message.Severity) :
    (Message.Severity.Debug < Message.Severity.Nominal ∧
      Message.Severity.Nominal < Message.Severity.Notice ∧
      Message.Severity.Notice < Message.Severity.Warning ∧
      Message.Severity.Warning < Message.Severity.Error ∧
      Message.Severity.Error < Message.Severity.Fatal) ∧
    (self.promote name_ok description_ok s).1.severity = max self.severity s ∧
    (self.promote name_ok description_ok s).2.severity = max self.severity s ∧
    self.severity ≤ (self.promote name_ok description_ok s).1.severity ∧
    self.severity ≤ (self.promote name_ok description_ok s).2.severity ∧
    (self.severity ≤ s →
      (self.promote name_ok description_ok s).1.severity = s ∧
      (self.promote name_ok description_ok s).2.severity = s) := by
  have h1 : (self.promote name_ok description_ok s).1.severity = max self.severity s := by
    unfold Message.severity
    rw [Message.promote_receiver_severity, Message.Severity.ite_lt_eq_max]
  have h2 : (self.promote name_ok description_ok s).2.severity = max self.severity s := by
    rw [← h1]
    rfl
  refine ⟨by decide, h1, h2, ?_, ?_, ?_⟩
  · rw [h1]
    exact le_max_left _ _
  · rw [h2]
    exact le_max_left _ _
  · intro h
    rw [h1, h2, max_eq_right h]
    exact ⟨rfl, rfl⟩

/-- Witness for C2: promoting a `Notice` message to `Error`. -/
theorem promote_severity_eq_max_witness :
    Message.Severity.Notice ≤ Message.Severity.Error ∧
    ((Message.ctor_nodesc true 3 (util.NoThrowString.ctor true "n") .Notice {}).promote
        true true .Error).1.severity = .Error ∧
    ((Message.ctor_nodesc true 3 (util.NoThrowString.ctor true "n") .Notice {}).promote
        true true .Error).2.severity = .Error :=
  ⟨by decide,
   (promote_severity_eq_max true true
      (Message.ctor_nodesc true 3 (util.NoThrowString.ctor true "n") .Notice {})
      .Error).2.2.2.2.2 (by decide)⟩

/-- C3: for every message `m` and every severity `s <= m.severity()`, `promote(s)` is a
no-op: the receiver after the call equals the receiver before it, field by field
(code, name, has_description, description, severity, origin, trace), and the returned
object is a plain copy of it. Consequently, for every `s`, calling `promote(s)` twice
leaves the same message as calling it once. -/
theorem promote_noop_and_idempotent (name_ok description_ok name_ok2 description_ok2 : Bool)
    (self : Message) (s : Message.Severity) :
    (s ≤ self.severity →
      (self.promote name_ok description_ok s).1 = self ∧
      (self.promote name_ok description_ok s).1.m_code = self.m_code ∧
      (self.promote name_ok description_ok s).1.m_name = self.m_name ∧
      (self.promote name_ok description_ok s).1.m_has_description = self.m_has_description ∧
      (self.promote name_ok description_ok s).1.m_description = self.m_description ∧
      (self.promote name_ok description_ok s).1.m_severity = self.m_severity ∧
      (self.promote name_ok description_ok s).1.m_source_location = self.m_source_location ∧
      (self.promote name_ok description_ok s).1.m_trace = self.m_trace ∧
      (self.promote name_ok description_ok s).2 = Message.ctor_copy name_ok description_ok self ∧
      (self.promote true true s).2 = self) ∧
    ((self.promote name_ok description_ok s).1.promote name_ok2 description_ok2 s).1
      = (self.promote name_ok description_ok s).1 ∧
    ((self.promote true true s).2.promote true true s).2 = (self.promote true true s).2 := by
  have hsev : s ≤ (self.promote name_ok description_ok s).1.m_severity := by
    rw [Message.promote_receiver_severity, Message.Severity.ite_lt_eq_max]
    exact le_max_right _ _
  have hsev2 : s ≤ (self.promote true true s).1.m_severity := by
    rw [Message.promote_receiver_severity, Message.Severity.ite_lt_eq_max]
    exact le_max_right _ _
  have hres : ∀ m : Message, (m.promote true true s).2 = (m.promote true true s).1 :=
    fun m => Message.copy_eq_source_when_allocated _
  refine ⟨fun h => ?_, Message.promote_receiver_of_le _ _ _ _ hsev, ?_⟩
  · have e : (self.promote name_ok description_ok s).1 = self :=
      Message.promote_receiver_of_le _ _ _ _ h
    have e2 : (self.promote true true s).1 = self := Message.promote_receiver_of_le _ _ _ _ h
    refine ⟨e, by rw [e], by rw [e], by rw [e], by rw [e], by rw [e], by rw [e], by rw [e],
      ?_, ?_⟩
    · show Message.ctor_copy name_ok description_ok (self.promote name_ok description_ok s).1 = _
      rw [e]
    · rw [hres, e2]
  · rw [hres, hres, Message.promote_receiver_of_le _ _ _ _ hsev2]

/-- Witness for C3: promoting a `Warning` message to `Notice` changes nothing. -/
theorem promote_noop_and_idempotent_witness :
    Message.Severity.Notice ≤ Message.Severity.Warning ∧
    ((Message.ctor 5 (util.NoThrowString.ctor true "w") (util.NoThrowString.ctor true "d")
        .Warning {}).promote true true .Notice).1
      = Message.ctor 5 (util.NoThrowString.ctor true "w") (util.NoThrowString.ctor true "d")
        .Warning {} :=
  ⟨by decide,
   ((promote_noop_and_idempotent true true true true
      (Message.ctor 5 (util.NoThrowString.ctor true "w") (util.NoThrowString.ctor true "d")
        .Warning {}) .Notice).1 (by decide)).1⟩

/-- C4: for every message, `is_failure()` is true if and only if `severity() >= Error`:
true for exactly `Error` and `Fatal`, false for `Debug`, `Nominal`, `Notice` and
`Warning`; and the same equivalence holds for the object a client holds after any
sequence of `promote` and `add_trace` calls, whether it follows the receiver or the
returned object. -/
theorem is_failure_iff_severity_at_least_error :
    (∀ m : Message, m.is_failure = true ↔ m.severity ≥ Message.Severity.Error) ∧
    (∀ m : Message, m.is_failure = true ↔
      (m.severity = Message.Severity.Error ∨ m.severity = Message.Severity.Fatal)) ∧
    (∀ m : Message, m.is_failure = false ↔
      (m.severity = Message.Severity.Debug ∨ m.severity = Message.Severity.Nominal ∨
        m.severity = Message.Severity.Notice ∨ m.severity = Message.Severity.Warning)) ∧
    (∀ (m : Message) (cs : List Message.Call),
      (m.calls cs).is_failure = true ↔ (m.calls cs).severity ≥ Message.Severity.Error) := by
  have base : ∀ m : Message, m.is_failure = true ↔ m.severity ≥ Message.Severity.Error := by
    intro m
    simp [Message.is_failure, Message.severity]
  refine ⟨base, ?_, ?_, fun m cs => base _⟩
  · intro m
    obtain ⟨c, n, h, d, sev, loc, tr⟩ := m
    cases sev <;> simp [Message.is_failure, Message.severity] <;> decide
  · intro m
    obtain ⟨c, n, h, d, sev, loc, tr⟩ := m
    cases sev <;> simp [Message.is_failure, Message.severity] <;> decide

/-- C5: for every message with trace `t` and every string `x`, after `add_trace(x)` the
trace of the receiver and the trace of the returned message both equal `t` followed by
`x`: the old entries stay, in order, `x` is last, `x` is appended also when it already
occurs in `t` (its number of occurrences grows by one), and the length grows by one. -/
theorem add_trace_appends_last (name_ok description_ok : Bool) (self : Message) (x : String) :
    (self.add_trace name_ok description_ok x).1.get_trace = self.get_trace ++ [x] ∧
    (self.add_trace name_ok description_ok x).2.get_trace = self.get_trace ++ [x] ∧
    (self.add_trace name_ok description_ok x).1.get_trace.length = self.get_trace.length + 1 ∧
    (self.add_trace name_ok description_ok x).2.get_trace.length = self.get_trace.length + 1 ∧
    (self.add_trace name_ok description_ok x).1.get_trace.take self.get_trace.length
      = self.get_trace ∧
    (self.add_trace name_ok description_ok x).1.get_trace.getLast? = some x ∧
    (self.add_trace name_ok description_ok x).1.get_trace.count x
      = self.get_trace.count x + 1 ∧
    (self.add_trace name_ok description_ok x).2.get_trace.count x
      = self.get_trace.count x + 1 := by
  have h1 : (self.add_trace name_ok description_ok x).1.get_trace = self.get_trace ++ [x] := rfl
  have h2 : (self.add_trace name_ok description_ok x).2.get_trace = self.get_trace ++ [x] := rfl
  rw [h1, h2]
  simp

/-- C6, as stated, fails: on a default-constructed message (empty trace), after
`m.add_trace("a").add_trace("b")` the trace of `m` is `["a"]`, not `["a", "b"]`; the
second call appended to the temporary that the first call returned by value. -/
theorem add_trace_chain_receiver_keeps_first_only :
    (Message.ctor_default true true).get_trace = [] ∧
    (Message.add_trace_chain true true true true
      (Message.ctor_default true true) "a" "b").1.get_trace = ["a"] ∧
    (Message.add_trace_chain true true true true
      (Message.ctor_default true true) "a" "b").1.get_trace ≠ ["a", "b"] := by
  decide

/-- C6, amended: `add_trace` returns by value a copy of the message taken after the
append, so a chained call acts on that copy. For every message `m` with an empty trace,
after `m.add_trace(x).add_trace(y)` the value of the expression has trace `[x, y]`,
and `m.get_trace()` is `[x]`. -/
theorem add_trace_chain_accumulates_in_result
    (name_ok1 description_ok1 name_ok2 description_ok2 : Bool)
    (m : Message) (x y : String) (h : m.get_trace = []) :
    (Message.add_trace_chain name_ok1 description_ok1 name_ok2 description_ok2
      m x y).2.get_trace = [x, y] ∧
    (Message.add_trace_chain name_ok1 description_ok1 name_ok2 description_ok2
      m x y).1.get_trace = [x] := by
  have h1 : (Message.add_trace_chain name_ok1 description_ok1 name_ok2 description_ok2
      m x y).2.get_trace = (m.get_trace ++ [x]) ++ [y] := rfl
  have h2 : (Message.add_trace_chain name_ok1 description_ok1 name_ok2 description_ok2
      m x y).1.get_trace = m.get_trace ++ [x] := rfl
  rw [h1, h2, h]
  exact ⟨rfl, rfl⟩

/-- Witness for C6, amended: the chain `add_trace("a").add_trace("b")` on a
default-constructed message. -/
theorem add_trace_chain_accumulates_in_result_witness :
    (Message.ctor_default true true).get_trace = [] ∧
    (Message.add_trace_chain true true true true
      (Message.ctor_default true true) "a" "b").2.get_trace = ["a", "b"] ∧
    (Message.add_trace_chain true true true true
      (Message.ctor_default true true) "a" "b").1.get_trace = ["a"] :=
  ⟨rfl, add_trace_chain_accumulates_in_result true true true true
    (Message.ctor_default true true) "a" "b" rfl⟩

/-! ## Message: rendering -/

/-- C7: for every message, `message()` is exactly `[<Severity>]: <name>`, with the
severity written by its name, followed by ` - <description>` if and only if
`has_description()` is true. Two messages that agree on severity, name, the description
flag and (when flagged) the description render alike, whatever their code, origin and
trace. Name `Disk Full` at severity `Error` renders as `[Error]: Disk Full` without a
description and as `[Error]: Disk Full - no space left` with that description. -/
theorem message_renders_severity_name_description :
    (∀ m : Message,
      m.message = Spec.render m.severity m.name m.has_description m.description) ∧
    (∀ m : Message, m.has_description = false →
      m.message = "[" ++ Spec.severity_name m.severity ++ "]: " ++ m.name) ∧
    (∀ m : Message, m.has_description = true →
      m.message
        = "[" ++ Spec.severity_name m.severity ++ "]: " ++ m.name ++ " - " ++ m.description) ∧
    (∀ m : Message,
      m.message
        = "[" ++ Spec.severity_name m.severity ++ "]: " ++ m.name ++ " - " ++ m.description
      ↔ m.has_description = true) ∧
    (∀ m1 m2 : Message, m1.severity = m2.severity → m1.name = m2.name →
      m1.has_description = m2.has_description →
      (m1.has_description = true → m1.description = m2.description) →
      m1.message = m2.message) ∧
    (∀ (description_ok : Bool) (code : Nat) (location : SourceLocation),
      (Message.ctor_nodesc description_ok code (util.NoThrowString.ctor true "Disk Full")
        .Error location).message = "[Error]: Disk Full") ∧
    (∀ (code : Nat) (location : SourceLocation),
      (Message.ctor code (util.NoThrowString.ctor true "Disk Full")
        (util.NoThrowString.ctor true "no space left") .Error location).message
        = "[Error]: Disk Full - no space left") := by
  have hno : ∀ m : Message, m.has_description = false →
      m.message = "[" ++ Spec.severity_name m.severity ++ "]: " ++ m.name := by
    intro m h
    rw [Message.message_eq_render, Spec.render, h]
    simp
  have hyes : ∀ m : Message, m.has_description = true →
      m.message
        = "[" ++ Spec.severity_name m.severity ++ "]: " ++ m.name ++ " - " ++ m.description := by
    intro m h
    rw [Message.message_eq_render, Spec.render, h]
    simp [String.append_assoc]
  refine ⟨Message.message_eq_render, hno, hyes, ?_, ?_, ?_, ?_⟩
  · intro m
    refine ⟨fun e => ?_, hyes m⟩
    cases hd : m.has_description
    · exfalso
      rw [hno m hd] at e
      have hlen := congrArg String.length e
      simp only [String.length_append] at hlen
      have h3 : (" - " : String).length = 3 := by decide
      omega
    · rfl
  · intro m1 m2 hs hn hd hdesc
    rw [Message.message_eq_render, Message.message_eq_render, hs, hn, ← hd]
    cases h : m1.has_description
    · simp [Spec.render]
    · rw [hdesc h]
  · intro description_ok code location
    rfl
  · intro code location
    rfl

/-- Witness for C7: two messages with different code, origin and trace that agree on
severity, name and the (absent) description render to the same string. -/
theorem message_renders_severity_name_description_witness :
    (Message.ctor_nodesc true 1 (util.NoThrowString.ctor true "Disk Full") .Error {}).message
      = ((Message.ctor_nodesc false 2 (util.NoThrowString.ctor true "Disk Full") .Error
          { file_name := "disk.cpp", line := 10, column := 4, function_name := "probe" }).add_trace
            true true "mount").1.message :=
  message_renders_severity_name_description.2.2.2.2.1
    (Message.ctor_nodesc true 1 (util.NoThrowString.ctor true "Disk Full") .Error {})
    ((Message.ctor_nodesc false 2 (util.NoThrowString.ctor true "Disk Full") .Error
      { file_name := "disk.cpp", line := 10, column := 4, function_name := "probe" }).add_trace
        true true "mount").1
    rfl rfl rfl (fun h => absurd h (by decide))

/-! ## The severity-named constructors -/

/-- C8, what the code does: `ErrorMessage(1, "Disk Full")` has severity `Nominal`, not
`Error`, and is not a failure; and for all arguments each of the twelve constructors
of `NominalMessage`, `DebugMessage`, `NoticeMessage`, `WarningMessage`, `ErrorMessage`
and `FatalMessage` gives severity `Nominal`, so that `ErrorMessage` and `FatalMessage`
objects have `is_failure()` false. Only `NominalMessage` gets its namesake severity. -/
theorem convenience_constructors_all_give_nominal :
    (ErrorMessage.ctor_nodesc true 1 (util.NoThrowString.ctor true "Disk Full") {}).severity
      = Message.Severity.Nominal ∧
    (ErrorMessage.ctor_nodesc true 1 (util.NoThrowString.ctor true "Disk Full") {}).severity
      ≠ Message.Severity.Error ∧
    (ErrorMessage.ctor_nodesc true 1 (util.NoThrowString.ctor true "Disk Full") {}).is_failure
      = false ∧
    (∀ (description_ok : Bool) (code : Nat) (name description : util.NoThrowString)
        (location : SourceLocation),
      (NominalMessage.ctor code name description location).severity = .Nominal ∧
      (NominalMessage.ctor_nodesc description_ok code name location).severity = .Nominal ∧
      (DebugMessage.ctor code name description location).severity = .Nominal ∧
      (DebugMessage.ctor_nodesc description_ok code name location).severity = .Nominal ∧
      (NoticeMessage.ctor code name description location).severity = .Nominal ∧
      (NoticeMessage.ctor_nodesc description_ok code name location).severity = .Nominal ∧
      (WarningMessage.ctor code name description location).severity = .Nominal ∧
      (WarningMessage.ctor_nodesc description_ok code name location).severity = .Nominal ∧
      (ErrorMessage.ctor code name description location).severity = .Nominal ∧
      (ErrorMessage.ctor_nodesc description_ok code name location).severity = .Nominal ∧
      (FatalMessage.ctor code name description location).severity = .Nominal ∧
      (FatalMessage.ctor_nodesc description_ok code name location).severity = .Nominal ∧
      (ErrorMessage.ctor code name description location).is_failure = false ∧
      (ErrorMessage.ctor_nodesc description_ok code name location).is_failure = false ∧
      (FatalMessage.ctor code name description location).is_failure = false ∧
      (FatalMessage.ctor_nodesc description_ok code name location).is_failure = false) := by
  refine ⟨rfl, by decide, by decide, ?_⟩
  intro description_ok code name description location
  refine ⟨rfl, rfl, rfl, rfl, rfl, rfl, rfl, rfl, rfl, rfl, rfl, rfl, ?_, ?_, ?_, ?_⟩ <;>
    simp [Message.is_failure, ErrorMessage.ctor, ErrorMessage.ctor_nodesc, FatalMessage.ctor,
      FatalMessage.ctor_nodesc, Message.ctor, Message.ctor_nodesc] <;> decide

/-! ## Logger: changing the threshold -/

/-- C9: after `set_severity(T')`, whatever the threshold was before, a following
`log_message` hands a message of severity `S` to the sink iff `S >= T'`; the logger is
then the one constructed with threshold `T'`, so the old threshold has no influence.
`set_severity` leaves the sink, and so what was delivered, as it is. With threshold
`Nominal` a `Warning` is delivered; after `set_severity(Error)` another `Warning` is
not, and the sink holds exactly the first. -/
theorem set_severity_governs_later_log_calls :
    (∀ (self : Logger) (T : Message.Severity), self.set_severity T = Logger.ctor T) ∧
    (∀ (self : Logger) (T : Message.Severity) (received : List Message),
      Logger.call RecordingLogger.log_message_internal (self, received) (.set_severity T)
        = (Logger.ctor T, received)) ∧
    (∀ (self : Logger) (T : Message.Severity) (message : Message) (received : List Message),
      message.severity ≥ T →
      Logger.run RecordingLogger.log_message_internal (self, received)
          [.set_severity T, .log_message message]
        = (Logger.ctor T, received ++ [message])) ∧
    (∀ (self : Logger) (T : Message.Severity) (message : Message) (received : List Message),
      message.severity < T →
      Logger.run RecordingLogger.log_message_internal (self, received)
          [.set_severity T, .log_message message]
        = (Logger.ctor T, received)) ∧
    (∀ (self : Logger) (T : Message.Severity) (message : Message) (σ : Type)
        (handler : Message → σ → σ) (sink : σ),
      (Logger.run handler (self, sink) [.set_severity T, .log_message message]).2
        = if message.severity ≥ T then handler message sink else sink) ∧
    (∀ first second : Message,
      first.severity = .Warning → second.severity = .Warning →
      Logger.run RecordingLogger.log_message_internal (Logger.ctor .Nominal, [])
          [.log_message first, .set_severity .Error, .log_message second]
        = (Logger.ctor .Error, [first])) := by
  refine ⟨fun _ _ => rfl, fun _ _ _ => rfl, ?_, ?_, fun _ _ _ _ _ _ => rfl, ?_⟩
  · intro self T message received h
    simp [Logger.run, Logger.call, Logger.log_message, Logger.set_severity, Logger.ctor, h,
      RecordingLogger.log_message_internal]
  · intro self T message received h
    simp [Logger.run, Logger.call, Logger.log_message, Logger.set_severity, Logger.ctor,
      not_le.mpr h]
  · intro first second h1 h2
    have a : first.severity ≥ Message.Severity.Nominal := by rw [h1]; decide
    have b : ¬ second.severity ≥ Message.Severity.Error := by rw [h2]; decide
    simp [Logger.run, Logger.call, Logger.log_message, Logger.set_severity, Logger.ctor, a, b,
      RecordingLogger.log_message_internal]

/-- Witness for C9: two `Warning` messages around `set_severity(Error)` on a logger
built with threshold `Nominal`; only the first reaches the sink. -/
theorem set_severity_governs_later_log_calls_witness :
    Logger.run RecordingLogger.log_message_internal (Logger.ctor .Nominal, [])
        [.log_message (Message.ctor_nodesc true 1 (util.NoThrowString.ctor true "w1") .Warning {}),
         .set_severity .Error,
         .log_message (Message.ctor_nodesc true 2 (util.NoThrowString.ctor true "w2") .Warning {})]
      = (Logger.ctor .Error,
          [Message.ctor_nodesc true 1 (util.NoThrowString.ctor true "w1") .Warning {}]) ∧
    Logger.run RecordingLogger.log_message_internal (Logger.ctor .Debug, [])
        [.set_severity .Notice,
         .log_message (Message.ctor_nodesc true 3 (util.NoThrowString.ctor true "n") .Notice {})]
      = (Logger.ctor .Notice,
          [Message.ctor_nodesc true 3 (util.NoThrowString.ctor true "n") .Notice {}]) ∧
    Logger.run RecordingLogger.log_message_internal (Logger.ctor .Debug, [])
        [.set_severity .Fatal,
         .log_message (Message.ctor_nodesc true 4 (util.NoThrowString.ctor true "e") .Error {})]
      = (Logger.ctor .Fatal, []) :=
  ⟨set_severity_governs_later_log_calls.2.2.2.2.2
      (Message.ctor_nodesc true 1 (util.NoThrowString.ctor true "w1") .Warning {})
      (Message.ctor_nodesc true 2 (util.NoThrowString.ctor true "w2") .Warning {}) rfl rfl,
   set_severity_governs_later_log_calls.2.2.1 (Logger.ctor .Debug) .Notice
      (Message.ctor_nodesc true 3 (util.NoThrowString.ctor true "n") .Notice {}) []
      (by decide),
   set_severity_governs_later_log_calls.2.2.2.1 (Logger.ctor .Debug) .Fatal
      (Message.ctor_nodesc true 4 (util.NoThrowString.ctor true "e") .Error {}) []
      (by decide)⟩

/-! ## Message: default construction -/

/-- C10: a default-constructed message has `code() == 0`, `has_description() == true`,
`severity() == Nominal` and an empty trace, whatever the outcome of the two string
allocations; and `name() == "Default Name"` when the allocation of the name
succeeded. -/
theorem default_message_fields (name_ok description_ok : Bool) :
    (Message.ctor_default name_ok description_ok).code = 0 ∧
    (Message.ctor_default name_ok description_ok).has_description = true ∧
    (Message.ctor_default name_ok description_ok).severity = Message.Severity.Nominal ∧
    (Message.ctor_default name_ok description_ok).get_trace = [] ∧
    (name_ok = true → (Message.ctor_default name_ok description_ok).name = "Default Name") := by
  refine ⟨rfl, rfl, rfl, rfl, ?_⟩
  intro h
  subst h
  rfl

/-- Witness for C10: the default-constructed message whose allocations succeeded. -/
theorem default_message_fields_witness :
    (Message.ctor_default true true).code = 0 ∧
    (Message.ctor_default true true).name = "Default Name" ∧
    (Message.ctor_default true true).has_description = true ∧
    (Message.ctor_default true true).severity = Message.Severity.Nominal ∧
    (Message.ctor_default true true).get_trace = [] :=
  ⟨(default_message_fields true true).1,
   (default_message_fields true true).2.2.2.2 rfl,
   (default_message_fields true true).2.1,
   (default_message_fields true true).2.2.1,
   (default_message_fields true true).2.2.2.1⟩

/-! ## Message: the origin accessors -/

/-- C11, what the code does: with captured file `Message.cpp` the string `xyzM` is not a
contiguous part of the path, and yet `function("xyzM")` is `age.cpp`, not the path
`Message.cpp` that `function("")` gives. `find_first_of` stops at the first character
that occurs anywhere in `relative_to`, here the `M` at position 0, and four characters
are erased from there. -/
theorem function_changes_path_without_substring_match :
    ¬ ("xyzM".data <:+: (stdlib.posix_filename "Message.cpp").data) ∧
    stdlib.string_find_first_of (stdlib.posix_filename "Message.cpp") "xyzM" = some 0 ∧
    (Message.ctor_nodesc true 0 (util.NoThrowString.ctor true "n") .Nominal
      { file_name := "Message.cpp", line := 3, column := 1, function_name := "f" }).function
        stdlib.posix_filename "" = "Message.cpp" ∧
    (Message.ctor_nodesc true 0 (util.NoThrowString.ctor true "n") .Nominal
      { file_name := "Message.cpp", line := 3, column := 1, function_name := "f" }).function
        stdlib.posix_filename "xyzM" = "age.cpp" ∧
    (Message.ctor_nodesc true 0 (util.NoThrowString.ctor true "n") .Nominal
      { file_name := "Message.cpp", line := 3, column := 1, function_name := "f" }).function
        stdlib.posix_filename "xyzM" ≠
      (Message.ctor_nodesc true 0 (util.NoThrowString.ctor true "n") .Nominal
        { file_name := "Message.cpp", line := 3, column := 1, function_name := "f" }).function
          stdlib.posix_filename "" := by
  decide

/-- C12, what the code does: with captured file `Message.cpp` the string `age` occurs in
the path at position 4 and nowhere else, and removing that occurrence gives `Mess.cpp`;
yet `function("age")` is `Mage.cpp`. `find_first_of` stops at the `e` at position 1, a
character of `age`, and three characters are erased from there. -/
theorem function_erases_at_first_shared_character :
    "age".data <:+: (stdlib.posix_filename "Message.cpp").data ∧
    (List.range 12).filter
        (fun i => (((stdlib.posix_filename "Message.cpp").data.drop i).take 3 == "age".data))
      = [4] ∧
    stdlib.string_erase (stdlib.posix_filename "Message.cpp") 4 3 = "Mess.cpp" ∧
    stdlib.string_find_first_of (stdlib.posix_filename "Message.cpp") "age" = some 1 ∧
    (Message.ctor_nodesc true 0 (util.NoThrowString.ctor true "n") .Nominal
      { file_name := "Message.cpp", line := 3, column := 1, function_name := "f" }).function
        stdlib.posix_filename "age" = "Mage.cpp" ∧
    (Message.ctor_nodesc true 0 (util.NoThrowString.ctor true "n") .Nominal
      { file_name := "Message.cpp", line := 3, column := 1, function_name := "f" }).function
        stdlib.posix_filename "age" ≠ "Mess.cpp" := by
  decide

/-- C13, what the code does: for every message constructed with an origin, `file()`,
`line()` and `column()` return the file name, line and column of the origin, but
`function()` with the empty `relative_to` returns the file-name component of the
origin's file path, whatever the enclosing function name is. With origin
(`/src/main.cpp`, 10, 5, `int main()`) it returns `main.cpp`, not `int main()`. -/
theorem function_accessor_returns_file_name_component :
    (∀ (path_filename : String → String) (code : Nat) (name description : util.NoThrowString)
        (severity : Message.Severity) (location : SourceLocation),
      (Message.ctor code name description severity location).function path_filename ""
        = path_filename location.file_name ∧
      (Message.ctor code name description severity location).file = location.file_name ∧
      (Message.ctor code name description severity location).line = location.line ∧
      (Message.ctor code name description severity location).column = location.column) ∧
    (∀ (path_filename : String → String) (description_ok : Bool) (code : Nat)
        (name : util.NoThrowString) (severity : Message.Severity) (location : SourceLocation),
      (Message.ctor_nodesc description_ok code name severity location).function path_filename ""
        = path_filename location.file_name) ∧
    (Message.ctor 1 (util.NoThrowString.ctor true "n") (util.NoThrowString.ctor true "d") .Error
      { file_name := "/src/main.cpp", line := 10, column := 5,
        function_name := "int main()" }).function stdlib.posix_filename "" = "main.cpp" ∧
    (Message.ctor 1 (util.NoThrowString.ctor true "n") (util.NoThrowString.ctor true "d") .Error
      { file_name := "/src/main.cpp", line := 10, column := 5,
        function_name := "int main()" }).function stdlib.posix_filename "" ≠ "int main()" := by
  refine ⟨fun _ _ _ _ _ _ => ⟨rfl, rfl, rfl, rfl⟩, fun _ _ _ _ _ _ => rfl, by decide, by decide⟩

/-! ## Message: the description flag and the description -/

/-- C14: for every code, name, severity and origin, the message built by the constructor
that takes a description has `has_description() == true`, also when the description is
the empty string and also when it was default-constructed or could not be allocated;
the message built by the constructor without a description has
`has_description() == false`. -/
theorem has_description_tells_absent_from_empty :
    (∀ (code : Nat) (name description : util.NoThrowString) (severity : Message.Severity)
        (location : SourceLocation),
      (Message.ctor code name description severity location).has_description = true) ∧
    (∀ (alloc_ok : Bool) (code : Nat) (name : util.NoThrowString) (severity : Message.Severity)
        (location : SourceLocation),
      (Message.ctor code name (util.NoThrowString.ctor alloc_ok "") severity
        location).has_description = true) ∧
    (∀ (code : Nat) (name : util.NoThrowString) (severity : Message.Severity)
        (location : SourceLocation),
      (Message.ctor code name (util.NoThrowString.ctor true "") severity location).description
        = "") ∧
    (∀ (description_ok : Bool) (code : Nat) (name : util.NoThrowString)
        (severity : Message.Severity) (location : SourceLocation),
      (Message.ctor_nodesc description_ok code name severity location).has_description
        = false) :=
  ⟨fun _ _ _ _ _ => rfl, fun _ _ _ _ _ => rfl, fun _ _ _ _ => rfl, fun _ _ _ _ _ => rfl⟩

/-- C15: for every message built by the constructor without a description,
`description()` returns a string in every case, and it returns `Default Description`
when the allocation of that default member value succeeded; for every message built
with a description `d` whose storage was obtained, `description()` returns `d`. -/
theorem description_default_or_given (description_ok : Bool) (code : Nat)
    (name : util.NoThrowString) (severity : Message.Severity) (location : SourceLocation)
    (d : String) :
    (description_ok = true →
      (Message.ctor_nodesc description_ok code name severity location).description
        = "Default Description") ∧
    ((Message.ctor_nodesc description_ok code name severity location).description
        = "Default Description" ∨
      (Message.ctor_nodesc description_ok code name severity location).description
        = "Default String") ∧
    (Message.ctor code name (util.NoThrowString.ctor true d) severity location).description
      = d := by
  refine ⟨?_, ?_, rfl⟩
  · intro h
    subst h
    rfl
  · cases description_ok
    · exact Or.inr rfl
    · exact Or.inl rfl

/-- Witness for C15: a `Warning` built without a description, and one built with the
description `disk at 91%`. -/
theorem description_default_or_given_witness :
    (Message.ctor_nodesc true 4 (util.NoThrowString.ctor true "Disk") .Warning {}).description
      = "Default Description" ∧
    (Message.ctor 4 (util.NoThrowString.ctor true "Disk")
      (util.NoThrowString.ctor true "disk at 91%") .Warning {}).description = "disk at 91%" :=
  ⟨(description_default_or_given true 4 (util.NoThrowString.ctor true "Disk") .Warning {}
      "disk at 91%").1 rfl,
   (description_default_or_given true 4 (util.NoThrowString.ctor true "Disk") .Warning {}
      "disk at 91%").2.2⟩

/-! ## Message: what the mutators leave alone -/

/-- C16: for every message, `promote(s)` leaves code, name, the description flag,
description, origin and trace unchanged, and `add_trace(x)` leaves code, name, the
description flag, description, origin and severity unchanged. On the receiver every
one of these members keeps its value. In the returned message code, flag, origin and
trace or severity are those of the receiver in every case, and `name()` and
`description()` are those of the receiver when the allocation for the copy of that
string succeeded. -/
theorem mutators_change_only_severity_and_trace (name_ok description_ok : Bool)
    (self : Message) (s : Message.Severity) (x : String) :
    ((self.promote name_ok description_ok s).1.m_code = self.m_code ∧
      (self.promote name_ok description_ok s).1.m_name = self.m_name ∧
      (self.promote name_ok description_ok s).1.m_has_description = self.m_has_description ∧
      (self.promote name_ok description_ok s).1.m_description = self.m_description ∧
      (self.promote name_ok description_ok s).1.m_source_location = self.m_source_location ∧
      (self.promote name_ok description_ok s).1.m_trace = self.m_trace) ∧
    ((self.add_trace name_ok description_ok x).1.m_code = self.m_code ∧
      (self.add_trace name_ok description_ok x).1.m_name = self.m_name ∧
      (self.add_trace name_ok description_ok x).1.m_has_description = self.m_has_description ∧
      (self.add_trace name_ok description_ok x).1.m_description = self.m_description ∧
      (self.add_trace name_ok description_ok x).1.m_source_location = self.m_source_location ∧
      (self.add_trace name_ok description_ok x).1.m_severity = self.m_severity) ∧
    ((self.promote name_ok description_ok s).2.code = self.code ∧
      (self.promote name_ok description_ok s).2.has_description = self.has_description ∧
      (self.promote name_ok description_ok s).2.m_source_location = self.m_source_location ∧
      (self.promote name_ok description_ok s).2.get_trace = self.get_trace) ∧
    ((self.add_trace name_ok description_ok x).2.code = self.code ∧
      (self.add_trace name_ok description_ok x).2.has_description = self.has_description ∧
      (self.add_trace name_ok description_ok x).2.m_source_location = self.m_source_location ∧
      (self.add_trace name_ok description_ok x).2.severity = self.severity) ∧
    (name_ok = true →
      (self.promote name_ok description_ok s).2.name = self.name ∧
      (self.add_trace name_ok description_ok x).2.name = self.name) ∧
    (description_ok = true →
      (self.promote name_ok description_ok s).2.description = self.description ∧
      (self.add_trace name_ok description_ok x).2.description = self.description) := by
  have hp : (self.promote name_ok description_ok s).1
      = if self.m_severity < s then { self with m_severity := s } else self := rfl
  have hr : (self.promote name_ok description_ok s).2
      = Message.ctor_copy name_ok description_ok (self.promote name_ok description_ok s).1 := rfl
  have hn : (self.promote name_ok description_ok s).1.m_name = self.m_name := by
    rw [hp]; split <;> rfl
  have hd : (self.promote name_ok description_ok s).1.m_description = self.m_description := by
    rw [hp]; split <;> rfl
  refine ⟨⟨?_, hn, ?_, hd, ?_, ?_⟩, ⟨rfl, rfl, rfl, rfl, rfl, rfl⟩, ⟨?_, ?_, ?_, ?_⟩,
    ⟨rfl, rfl, rfl, rfl⟩, ?_, ?_⟩
  · rw [hp]; split <;> rfl
  · rw [hp]; split <;> rfl
  · rw [hp]; split <;> rfl
  · rw [hp]; split <;> rfl
  · show (self.promote name_ok description_ok s).1.m_code = _
    rw [hp]; split <;> rfl
  · show (self.promote name_ok description_ok s).1.m_has_description = _
    rw [hp]; split <;> rfl
  · show (self.promote name_ok description_ok s).1.m_source_location = _
    rw [hp]; split <;> rfl
  · show (self.promote name_ok description_ok s).1.m_trace = _
    rw [hp]; split <;> rfl
  · intro h
    subst h
    constructor
    · show (util.NoThrowString.ctor_copy true
        (self.promote true description_ok s).1.m_name).get = _
      rw [util.NoThrowString.copy_keeps_string_when_allocated, hn]
      rfl
    · show (util.NoThrowString.ctor_copy true self.m_name).get = _
      rw [util.NoThrowString.copy_keeps_string_when_allocated]
      rfl
  · intro h
    subst h
    constructor
    · show (util.NoThrowString.ctor_copy true
        (self.promote name_ok true s).1.m_description).get = _
      rw [util.NoThrowString.copy_keeps_string_when_allocated, hd]
      rfl
    · show (util.NoThrowString.ctor_copy true self.m_description).get = _
      rw [util.NoThrowString.copy_keeps_string_when_allocated]
      rfl

/-- Witness for C16: promoting to `Fatal` and adding a trace entry on a `Notice`
message keep the name and the description in the returned copies. -/
theorem mutators_change_only_severity_and_trace_witness :
    ((Message.ctor 2 (util.NoThrowString.ctor true "n") (util.NoThrowString.ctor true "d")
        .Notice {}).promote true true .Fatal).2.name = "n" ∧
    ((Message.ctor 2 (util.NoThrowString.ctor true "n") (util.NoThrowString.ctor true "d")
        .Notice {}).add_trace true true "t").2.description = "d" :=
  ⟨((mutators_change_only_severity_and_trace true true
      (Message.ctor 2 (util.NoThrowString.ctor true "n") (util.NoThrowString.ctor true "d")
        .Notice {}) .Fatal "t").2.2.2.2.1 rfl).1,
   ((mutators_change_only_severity_and_trace true true
      (Message.ctor 2 (util.NoThrowString.ctor true "n") (util.NoThrowString.ctor true "d")
        .Notice {}) .Fatal "t").2.2.2.2.2 rfl).2⟩

/-! ## The severity-named constructors pass their arguments through -/

/-- C17: each of the six severity-named classes adds no state and passes its arguments
through. For every code, name, description, location and every severity, the object
built by the overload with a description agrees with
`Message(code, name, description, severity, location)` in `code()`, `name()`,
`description()`, `has_description()`, origin and trace; the object built by the
overload without a description agrees in the same way with
`Message(code, name, severity, location)`, the default description being allocated
with the same outcome, and has `has_description() == false`. All traces are empty. -/
theorem convenience_constructors_pass_arguments_through :
    (∀ (code : Nat) (name description : util.NoThrowString) (severity : Message.Severity)
        (location : SourceLocation),
      Message.agrees_apart_from_severity
        (NominalMessage.ctor code name description location)
        (Message.ctor code name description severity location) ∧
      Message.agrees_apart_from_severity
        (DebugMessage.ctor code name description location)
        (Message.ctor code name description severity location) ∧
      Message.agrees_apart_from_severity
        (NoticeMessage.ctor code name description location)
        (Message.ctor code name description severity location) ∧
      Message.agrees_apart_from_severity
        (WarningMessage.ctor code name description location)
        (Message.ctor code name description severity location) ∧
      Message.agrees_apart_from_severity
        (ErrorMessage.ctor code name description location)
        (Message.ctor code name description severity location) ∧
      Message.agrees_apart_from_severity
        (FatalMessage.ctor code name description location)
        (Message.ctor code name description severity location)) ∧
    (∀ (description_ok : Bool) (code : Nat) (name : util.NoThrowString)
        (severity : Message.Severity) (location : SourceLocation),
      Message.agrees_apart_from_severity
        (NominalMessage.ctor_nodesc description_ok code name location)
        (Message.ctor_nodesc description_ok code name severity location) ∧
      (NominalMessage.ctor_nodesc description_ok code name location).has_description = false ∧
      Message.agrees_apart_from_severity
        (DebugMessage.ctor_nodesc description_ok code name location)
        (Message.ctor_nodesc description_ok code name severity location) ∧
      (DebugMessage.ctor_nodesc description_ok code name location).has_description = false ∧
      Message.agrees_apart_from_severity
        (NoticeMessage.ctor_nodesc description_ok code name location)
        (Message.ctor_nodesc description_ok code name severity location) ∧
      (NoticeMessage.ctor_nodesc description_ok code name location).has_description = false ∧
      Message.agrees_apart_from_severity
        (WarningMessage.ctor_nodesc description_ok code name location)
        (Message.ctor_nodesc description_ok code name severity location) ∧
      (WarningMessage.ctor_nodesc description_ok code name location).has_description = false ∧
      Message.agrees_apart_from_severity
        (ErrorMessage.ctor_nodesc description_ok code name location)
        (Message.ctor_nodesc description_ok code name severity location) ∧
      (ErrorMessage.ctor_nodesc description_ok code name location).has_description = false ∧
      Message.agrees_apart_from_severity
        (FatalMessage.ctor_nodesc description_ok code name location)
        (Message.ctor_nodesc description_ok code name severity location) ∧
      (FatalMessage.ctor_nodesc description_ok code name location).has_description = false) ∧
    (∀ (description_ok : Bool) (code : Nat) (name description : util.NoThrowString)
        (location : SourceLocation),
      (NominalMessage.ctor code name description location).get_trace = [] ∧
      (NominalMessage.ctor_nodesc description_ok code name location).get_trace = [] ∧
      (DebugMessage.ctor code name description location).get_trace = [] ∧
      (DebugMessage.ctor_nodesc description_ok code name location).get_trace = [] ∧
      (NoticeMessage.ctor code name description location).get_trace = [] ∧
      (NoticeMessage.ctor_nodesc description_ok code name location).get_trace = [] ∧
      (WarningMessage.ctor code name description location).get_trace = [] ∧
      (WarningMessage.ctor_nodesc description_ok code name location).get_trace = [] ∧
      (ErrorMessage.ctor code name description location).get_trace = [] ∧
      (ErrorMessage.ctor_nodesc description_ok code name location).get_trace = [] ∧
      (FatalMessage.ctor code name description location).get_trace = [] ∧
      (FatalMessage.ctor_nodesc description_ok code name location).get_trace = []) := by
  refine ⟨fun _ _ _ _ _ => ?_, fun _ _ _ _ _ => ?_, fun _ _ _ _ _ => ?_⟩
  · exact ⟨⟨rfl, rfl, rfl, rfl, rfl, rfl⟩, ⟨rfl, rfl, rfl, rfl, rfl, rfl⟩,
      ⟨rfl, rfl, rfl, rfl, rfl, rfl⟩, ⟨rfl, rfl, rfl, rfl, rfl, rfl⟩,
      ⟨rfl, rfl, rfl, rfl, rfl, rfl⟩, ⟨rfl, rfl, rfl, rfl, rfl, rfl⟩⟩
  · exact ⟨⟨rfl, rfl, rfl, rfl, rfl, rfl⟩, rfl, ⟨rfl, rfl, rfl, rfl, rfl, rfl⟩, rfl,
      ⟨rfl, rfl, rfl, rfl, rfl, rfl⟩, rfl, ⟨rfl, rfl, rfl, rfl, rfl, rfl⟩, rfl,
      ⟨rfl, rfl, rfl, rfl, rfl, rfl⟩, rfl, ⟨rfl, rfl, rfl, rfl, rfl, rfl⟩, rfl⟩
  · exact ⟨rfl, rfl, rfl, rfl, rfl, rfl, rfl, rfl, rfl, rfl, rfl, rfl⟩

/-! ## NoThrowString: the fallback -/

/-- C18: a `NoThrowString` whose allocation failed in the converting or the copy
constructor, and a default-constructed one, give `Default String` from `get()`; one
whose allocation succeeded for input `s` gives exactly `s`. A message whose name or
description could not be allocated is still constructed: `name()` and `description()`
return `Default String` for the string that is missing, and `message()` renders with
them. -/
theorem no_throw_string_falls_back_to_default :
    (∀ s : String, (util.NoThrowString.ctor false s).get = "Default String") ∧
    util.NoThrowString.ctor_default.get = "Default String" ∧
    (∀ x : util.NoThrowString, (util.NoThrowString.ctor_copy false x).get = "Default String") ∧
    (∀ s : String, (util.NoThrowString.ctor true s).get = s) ∧
    (∀ s : String,
      (util.NoThrowString.ctor_copy true (util.NoThrowString.ctor true s)).get = s) ∧
    (∀ (description_ok : Bool) (code : Nat) (n d : String) (severity : Message.Severity)
        (location : SourceLocation),
      (Message.ctor code (util.NoThrowString.ctor false n)
        (util.NoThrowString.ctor description_ok d) severity location).name
        = "Default String") ∧
    (∀ (name_ok : Bool) (code : Nat) (n d : String) (severity : Message.Severity)
        (location : SourceLocation),
      (Message.ctor code (util.NoThrowString.ctor name_ok n)
        (util.NoThrowString.ctor false d) severity location).description
        = "Default String") ∧
    (∀ (code : Nat) (n d : String) (severity : Message.Severity) (location : SourceLocation),
      (Message.ctor code (util.NoThrowString.ctor false n)
        (util.NoThrowString.ctor false d) severity location).message
        = Spec.render severity "Default String" true "Default String") ∧
    (∀ (code : Nat) (n : String) (severity : Message.Severity) (location : SourceLocation),
      (Message.ctor_nodesc false code (util.NoThrowString.ctor false n) severity
        location).message
        = Spec.render severity "Default String" false "Default String") ∧
    (Message.ctor 9 (util.NoThrowString.ctor false "Disk Full")
      (util.NoThrowString.ctor false "no space left") .Error {}).message
      = "[Error]: Default String - Default String" := by
  refine ⟨fun _ => rfl, rfl, ?_, fun _ => rfl, fun _ => rfl, fun _ _ _ _ _ _ => rfl,
    fun _ _ _ _ _ _ => rfl, ?_, ?_, by decide⟩
  · intro x
    obtain ⟨p⟩ := x
    cases p <;> rfl
  · intro code n d severity location
    rw [Message.message_eq_render]
    rfl
  · intro code n severity location
    rw [Message.message_eq_render]
    rfl

/-! ## Logger: the default threshold -/

/-- C19: a logger constructed without a threshold has threshold `Nominal`. For every
message, `log_message` on it hands the message to the sink iff the severity is
`Nominal` or higher, that is, iff the severity is not `Debug`; a logger constructed
with threshold `T` hands the message to the sink iff its severity is at least `T`. -/
theorem default_logger_threshold_is_nominal :
    Logger.ctor_default.m_threshold = Message.Severity.Nominal ∧
    Logger.ctor_default = Logger.ctor Message.Severity.Nominal ∧
    (∀ (message : Message) (received : List Message),
      Logger.ctor_default.log_message RecordingLogger.log_message_internal message received
          = received ++ [message]
        ↔ message.severity ≥ Message.Severity.Nominal) ∧
    (∀ (message : Message) (received : List Message),
      Logger.ctor_default.log_message RecordingLogger.log_message_internal message received
          = received
        ↔ message.severity = Message.Severity.Debug) ∧
    (∀ (message : Message) (received : List Message),
      Logger.ctor_default.log_message RecordingLogger.log_message_internal message received
        = if message.severity = Message.Severity.Debug then received
          else received ++ [message]) ∧
    (∀ (T : Message.Severity) (message : Message) (received : List Message),
      (Logger.ctor T).log_message RecordingLogger.log_message_internal message received
          = received ++ [message]
        ↔ message.severity ≥ T) ∧
    (∀ (T : Message.Severity) (message : Message) (received : List Message),
      (Logger.ctor T).log_message RecordingLogger.log_message_internal message received
          = received
        ↔ message.severity < T) := by
  have fwd : ∀ (T : Message.Severity) (message : Message) (received : List Message),
      (Logger.ctor T).log_message RecordingLogger.log_message_internal message received
          = received ++ [message]
        ↔ message.severity ≥ T := by
    intro T message received
    by_cases h : message.severity ≥ T <;>
      simp [Logger.log_message, Logger.ctor, RecordingLogger.log_message_internal, h]
  have drop : ∀ (T : Message.Severity) (message : Message) (received : List Message),
      (Logger.ctor T).log_message RecordingLogger.log_message_internal message received
          = received
        ↔ message.severity < T := by
    intro T message received
    by_cases h : message.severity ≥ T
    · simp [Logger.log_message, Logger.ctor, RecordingLogger.log_message_internal, h]
    · simp [Logger.log_message, Logger.ctor, h, not_le.mp h]
  have debug : ∀ m : Message,
      m.severity < Message.Severity.Nominal ↔ m.severity = Message.Severity.Debug := by
    intro m
    cases m.severity <;> decide
  refine ⟨rfl, rfl, fun m r => fwd _ m r, fun m r => (drop _ m r).trans (debug m), ?_, fwd, drop⟩
  intro message received
  by_cases h : message.severity = Message.Severity.Debug
  · rw [if_pos h]
    exact (drop Message.Severity.Nominal message received).mpr ((debug message).mpr h)
  · rw [if_neg h]
    refine (fwd Message.Severity.Nominal message received).mpr ?_
    exact not_lt.mp (fun hlt => h ((debug message).mp hlt))

/-! ## Message: `what()` -/

/-- C20, what the code does: `what()` passes `msg.size()` as the destination size, one
short of the `msg.size() + 1` characters it allocated and of what the characters plus
the terminator need. On a default-constructed message, whose `message()` has 45
characters, `strcpy_s` rejects the copy and leaves the empty C string. For every message
the C string returned differs from `message()`: it is empty, unless `message()` holds a
`NUL` character, and then it is cut at that character. With a failed allocation
`what()` returns the null pointer. -/
theorem what_never_returns_the_message :
    (Message.ctor_default true true).message
      = "[Nominal]: Default Name - Default Description" ∧
    (Message.ctor_default true true).message.length = 45 ∧
    stdlib.strcpy_s .indeterminate (45 * 1) (Message.ctor_default true true).message
      = (false, .c_string []) ∧
    stdlib.strcpy_s .indeterminate (45 + 1) (Message.ctor_default true true).message
      = (true, .c_string (Message.ctor_default true true).message.data) ∧
    (Message.ctor_default true true).what true = .c_string [] ∧
    (∀ m : Message, m.what true ≠ .c_string m.message.data) ∧
    (∀ m : Message,
      m.what true = .c_string [] ∨ stdlib.strlen m.message < m.message.length) ∧
    (∀ m : Message, m.what false = .null) := by
  have hpos := Message.message_length_pos
  have hwhat : ∀ m : Message, m.what true
      = if m.message.length ≤ stdlib.strlen m.message then .c_string []
        else .c_string (stdlib.c_str m.message) := by
    intro m
    have h0 : ¬ m.message.length = 0 := by have := hpos m; omega
    simp only [Message.what, stdlib.strcpy_s, Nat.mul_one, if_true, if_neg h0]
    split <;> rfl
  refine ⟨by decide, by decide, by decide, by decide, by decide, ?_, ?_, fun _ => rfl⟩
  · intro m
    rw [hwhat]
    split
    · intro h
      have hd : m.message.data = [] := by injection h with h; exact h.symm
      have := hpos m
      rw [String.length, hd] at this
      exact absurd this (by decide)
    · rename_i hlt
      intro h
      have hd : stdlib.c_str m.message = m.message.data := by injection h
      apply hlt
      unfold stdlib.strlen
      rw [hd]
      exact Nat.le_refl _
  · intro m
    rw [hwhat]
    by_cases h : m.message.length ≤ stdlib.strlen m.message
    · exact Or.inl (if_pos h)
    · exact Or.inr (Nat.lt_of_not_le h)

/-! ## Promotion and filtering -/

/-- C21: promotion never causes a message to be filtered out. For every logger, every
message `m` and every severity `s`, if `log_message` hands `m` to the sink, then it
also hands over `m` as it is after `m.promote(s)` and the message that `promote(s)`
returned; and for every threshold `T` the receiver after `m.promote(T)` and the returned
message are handed over by a logger with threshold `T`. -/
theorem promote_keeps_message_above_threshold (name_ok description_ok : Bool) (self : Logger)
    (m : Message) (s : Message.Severity) (received : List Message)
    (h : self.log_message RecordingLogger.log_message_internal m received = received ++ [m]) :
    (self.log_message RecordingLogger.log_message_internal
        (m.promote name_ok description_ok s).1 received
      = received ++ [(m.promote name_ok description_ok s).1]) ∧
    (self.log_message RecordingLogger.log_message_internal
        (m.promote name_ok description_ok s).2 received
      = received ++ [(m.promote name_ok description_ok s).2]) ∧
    (∀ (T : Message.Severity) (m0 : Message),
      (Logger.ctor T).log_message RecordingLogger.log_message_internal
          (m0.promote name_ok description_ok T).1 received
        = received ++ [(m0.promote name_ok description_ok T).1] ∧
      (Logger.ctor T).log_message RecordingLogger.log_message_internal
          (m0.promote name_ok description_ok T).2 received
        = received ++ [(m0.promote name_ok description_ok T).2]) := by
  have fwd : ∀ (l : Logger) (x : Message), x.severity ≥ l.m_threshold →
      l.log_message RecordingLogger.log_message_internal x received = received ++ [x] := by
    intro l x hx
    simp [Logger.log_message, RecordingLogger.log_message_internal, hx]
  have hm : m.severity ≥ self.m_threshold := by
    by_contra hlt
    simp [Logger.log_message, hlt] at h
  have sev1 : ∀ (x : Message) (t : Message.Severity),
      (x.promote name_ok description_ok t).1.severity = max x.severity t := by
    intro x t
    unfold Message.severity
    rw [Message.promote_receiver_severity, Message.Severity.ite_lt_eq_max]
  have sev2 : ∀ (x : Message) (t : Message.Severity),
      (x.promote name_ok description_ok t).2.severity = max x.severity t := by
    intro x t
    rw [← sev1]
    rfl
  refine ⟨fwd _ _ ?_, fwd _ _ ?_, fun T m0 => ⟨fwd _ _ ?_, fwd _ _ ?_⟩⟩
  · rw [sev1]
    exact le_trans hm (le_max_left _ _)
  · rw [sev2]
    exact le_trans hm (le_max_left _ _)
  · rw [sev1]
    exact le_max_right _ _
  · rw [sev2]
    exact le_max_right _ _

/-- Witness for C21: a `Warning` that a logger with threshold `Notice` hands over is
still handed over after `promote(Debug)` and after `promote(Fatal)`. -/
theorem promote_keeps_message_above_threshold_witness :
    (Logger.ctor .Notice).log_message RecordingLogger.log_message_internal
        (Message.ctor_nodesc true 6 (util.NoThrowString.ctor true "w") .Warning {}) []
      = [Message.ctor_nodesc true 6 (util.NoThrowString.ctor true "w") .Warning {}] ∧
    (Logger.ctor .Notice).log_message RecordingLogger.log_message_internal
        ((Message.ctor_nodesc true 6 (util.NoThrowString.ctor true "w") .Warning {}).promote
          true true .Debug).1 []
      = [((Message.ctor_nodesc true 6 (util.NoThrowString.ctor true "w") .Warning {}).promote
          true true .Debug).1] ∧
    (Logger.ctor .Notice).log_message RecordingLogger.log_message_internal
        ((Message.ctor_nodesc true 6 (util.NoThrowString.ctor true "w") .Warning {}).promote
          true true .Fatal).2 []
      = [((Message.ctor_nodesc true 6 (util.NoThrowString.ctor true "w") .Warning {}).promote
          true true .Fatal).2] :=
  ⟨by decide,
   (promote_keeps_message_above_threshold true true (Logger.ctor .Notice)
      (Message.ctor_nodesc true 6 (util.NoThrowString.ctor true "w") .Warning {}) .Debug []
      (by decide)).1,
   (promote_keeps_message_above_threshold true true (Logger.ctor .Notice)
      (Message.ctor_nodesc true 6 (util.NoThrowString.ctor true "w") .Warning {}) .Fatal []
      (by decide)).2.1⟩

/-! ## Rendering: what the string tells -/

/-- C22: the rendered string identifies the severity. The six tags are pairwise
distinct, a tag followed by any text differs from another tag followed by any text,
and so two messages of different severity have different `message()` strings, whatever
their names and descriptions are. -/
theorem message_identifies_severity :
    (∀ s1 s2 : Message.Severity, s1 ≠ s2 → Message.severity_tag s1 ≠ Message.severity_tag s2) ∧
    (∀ (s1 s2 : Message.Severity) (x y : String), s1 ≠ s2 →
      Message.severity_tag s1 ++ x ≠ Message.severity_tag s2 ++ y) ∧
    (∀ m1 m2 : Message, m1.severity ≠ m2.severity → m1.message ≠ m2.message) ∧
    (∀ m1 m2 : Message, m1.message = m2.message → m1.severity = m2.severity) := by
  have tag_head : ∀ (s : Message.Severity) (x : String),
      (Message.severity_tag s ++ x).data.take 4 = (Message.severity_tag s).data.take 4 := by
    intro s x
    rw [String.data_append]
    apply List.take_append_of_le_length
    cases s <;> decide
  have head_inj : ∀ s1 s2 : Message.Severity,
      (Message.severity_tag s1).data.take 4 = (Message.severity_tag s2).data.take 4 →
      s1 = s2 := by
    intro s1 s2
    cases s1 <;> cases s2 <;> decide
  have tagged : ∀ (s1 s2 : Message.Severity) (x y : String),
      Message.severity_tag s1 ++ x = Message.severity_tag s2 ++ y → s1 = s2 := by
    intro s1 s2 x y h
    apply head_inj
    rw [← tag_head s1 x, ← tag_head s2 y, h]
  have shape : ∀ m : Message, ∃ rest : String,
      m.message = Message.severity_tag m.m_severity ++ rest := by
    intro m
    unfold Message.message
    cases m.has_description
    · exact ⟨": " ++ m.m_name.get, by simp [String.append_assoc]⟩
    · exact ⟨": " ++ m.m_name.get ++ " - " ++ m.m_description.get,
        by simp [String.append_assoc]⟩
  have same : ∀ m1 m2 : Message, m1.message = m2.message → m1.severity = m2.severity := by
    intro m1 m2 h
    obtain ⟨r1, e1⟩ := shape m1
    obtain ⟨r2, e2⟩ := shape m2
    rw [e1, e2] at h
    exact tagged _ _ _ _ h
  refine ⟨?_, fun s1 s2 x y hne h => hne (tagged s1 s2 x y h),
    fun m1 m2 hne h => hne (same m1 m2 h), same⟩
  intro s1 s2 hne h
  apply hne
  apply tagged s1 s2 "" ""
  rw [h]

/-- Witness for C22: a `Nominal` and a `Notice` message with the same name and no
description render differently. -/
theorem message_identifies_severity_witness :
    (Message.ctor_nodesc true 1 (util.NoThrowString.ctor true "x") .Nominal {}).message
      ≠ (Message.ctor_nodesc true 1 (util.NoThrowString.ctor true "x") .Notice {}).message :=
  message_identifies_severity.2.2.1
    (Message.ctor_nodesc true 1 (util.NoThrowString.ctor true "x") .Nominal {})
    (Message.ctor_nodesc true 1 (util.NoThrowString.ctor true "x") .Notice {})
    (by decide)

/-- C23: rendering is not injective in the name, the description flag and the
description. The `Notice` message with name `a - b` and no description and the `Notice`
message with name `a` and description `b` have the same severity and the same
`message()` string, `[Notice]: a - b`, while their names and description flags
differ; so there are two messages of one severity, one with and one without a
description, that render alike. -/
theorem message_does_not_determine_name_and_description :
    (Message.ctor_nodesc true 1 (util.NoThrowString.ctor true "a - b") .Notice {}).message
      = "[Notice]: a - b" ∧
    (Message.ctor 1 (util.NoThrowString.ctor true "a") (util.NoThrowString.ctor true "b")
      .Notice {}).message = "[Notice]: a - b" ∧
    (Message.ctor_nodesc true 1 (util.NoThrowString.ctor true "a - b") .Notice {}).has_description
      = false ∧
    (Message.ctor 1 (util.NoThrowString.ctor true "a") (util.NoThrowString.ctor true "b")
      .Notice {}).has_description = true ∧
    (Message.ctor_nodesc true 1 (util.NoThrowString.ctor true "a - b") .Notice {}).name
      ≠ (Message.ctor 1 (util.NoThrowString.ctor true "a") (util.NoThrowString.ctor true "b")
          .Notice {}).name ∧
    (∃ m1 m2 : Message, m1.severity = m2.severity ∧ m1.has_description = false ∧
      m2.has_description = true ∧ m1.message = m2.message) ∧
    (∀ (severity : Message.Severity) (n d : String) (code : Nat) (location : SourceLocation),
      (Message.ctor_nodesc true code (util.NoThrowString.ctor true (n ++ " - " ++ d)) severity
        location).message
      = (Message.ctor code (util.NoThrowString.ctor true n) (util.NoThrowString.ctor true d)
        severity location).message) ∧
    ¬ (∀ m1 m2 : Message, m1.message = m2.message →
        m1.name = m2.name ∧ m1.has_description = m2.has_description) := by
  refine ⟨by decide, by decide, rfl, rfl, by decide, ?_, ?_, ?_⟩
  · exact ⟨Message.ctor_nodesc true 1 (util.NoThrowString.ctor true "a - b") .Notice {},
      Message.ctor 1 (util.NoThrowString.ctor true "a") (util.NoThrowString.ctor true "b")
        .Notice {}, rfl, rfl, rfl, by decide⟩
  · intro severity n d code location
    rw [Message.message_eq_render, Message.message_eq_render]
    simp [Spec.render, Message.name, Message.description, Message.has_description,
      Message.severity, Message.ctor, Message.ctor_nodesc, util.NoThrowString.ctor,
      util.NoThrowString.ctor_move, util.NoThrowString.get, String.append_assoc]
  · intro h
    have hh := h (Message.ctor_nodesc true 1 (util.NoThrowString.ctor true "a - b") .Notice {})
      (Message.ctor 1 (util.NoThrowString.ctor true "a") (util.NoThrowString.ctor true "b")
        .Notice {}) (by decide)
    exact absurd hh.2 (by decide)

end isc
